import Mathlib

/-!
Verification of the `salesforce-remove-from-permission-set` action.

The development shallowly embeds the repository's JavaScript sources:
* `src/src/script.mjs` — the three-step workflow (`invoke`) that finds a
  user, finds a permission-set assignment, and deletes it;
* the bundled auth utilities (`getAuthorizationHeader`,
  `getClientCredentialsToken`, `getBaseURL`) from the `@sgnl-actions/utils`
  bundle shipped with the action;
* the error-classification logic of the `error` handler in `dist/index.js`.

JavaScript strings are modelled by Lean `String`; an absent or empty
secret/environment value is modelled by `""` (JS string truthiness is
exactly non-emptiness).  Network effects are modelled by passing the
remote responses in explicitly and returning the list of remote requests
the code issues alongside its result.
-/

namespace SfRemovePermSet

/-- The single-quote character (code point 39), used in SOQL query literals. -/
def sq : String := "\x27"

/-- Substring test on character lists: `pat` occurs contiguously in `s`. -/
def listContainsSub (s pat : List Char) : Bool :=
  (List.range (s.length + 1)).any fun i => pat.isPrefixOf (s.drop i)

/-- Substring test on strings, mirroring JavaScript `String.prototype.includes`. -/
def strContains (s pat : String) : Bool :=
  listContainsSub s.data pat.data

/-- Characters left unescaped by JavaScript `encodeURIComponent`:
ASCII alphanumerics and `- _ . ! ~ * ' ( )`. -/
def isUriUnreserved (c : Char) : Bool :=
  (Char.ofNat 65 ≤ c && c ≤ Char.ofNat 90) ||
  (Char.ofNat 97 ≤ c && c ≤ Char.ofNat 122) ||
  (Char.ofNat 48 ≤ c && c ≤ Char.ofNat 57) ||
  c == Char.ofNat 45 || c == Char.ofNat 95 || c == Char.ofNat 46 ||
  c == Char.ofNat 33 || c == Char.ofNat 126 || c == Char.ofNat 42 ||
  c == Char.ofNat 39 || c == Char.ofNat 40 || c == Char.ofNat 41

/-- UTF-8 bytes of a Unicode scalar value, as natural numbers. -/
def utf8Bytes (n : Nat) : List Nat :=
  if n < 128 then [n]
  else if n < 2048 then [192 + n / 64, 128 + n % 64]
  else if n < 65536 then [224 + n / 4096, 128 + (n / 64) % 64, 128 + n % 64]
  else [240 + n / 262144, 128 + (n / 4096) % 64, 128 + (n / 64) % 64, 128 + n % 64]

/-- Upper-case hexadecimal digit for `n < 16`. -/
def hexUpper (n : Nat) : Char :=
  if n < 10 then Char.ofNat (48 + n) else Char.ofNat (55 + n)

/-- Percent-escape of one byte, e.g. `%2F`. -/
def percentByte (b : Nat) : String :=
  "%" ++ String.singleton (hexUpper (b / 16)) ++ String.singleton (hexUpper (b % 16))

/-- Concatenation of the percent-escapes of a byte list. -/
def percentBytesStr : List Nat → String
  | [] => ""
  | b :: bs => percentByte b ++ percentBytesStr bs

/-- `encodeURIComponent` on a single character: unreserved characters pass
through; every other character becomes the percent-escapes of its UTF-8
bytes. -/
def encodeURIChar (c : Char) : String :=
  if isUriUnreserved c then String.singleton c
  else percentBytesStr (utf8Bytes c.toNat)

/-- `encodeURIComponent` over a character list. -/
def encodeURIChars : List Char → String
  | [] => ""
  | c :: cs => encodeURIChar c ++ encodeURIChars cs

/-- JavaScript `encodeURIComponent`, character by character. -/
def encodeURIComponent (s : String) : String :=
  encodeURIChars s.data

/-- The base64 alphabet. -/
def base64Alphabet : List Char :=
  "ABCDEFGHIJKLMNOPQRSTUVWXYZabcdefghijklmnopqrstuvwxyz0123456789+/".data

/-- Base64 digit for `n < 64`. -/
def b64c (n : Nat) : Char :=
  base64Alphabet.getD n (Char.ofNat 65)

/-- Base64 encoding of a byte list, with `=` padding, as in `btoa`. -/
def btoaBytes : List Nat → String
  | [] => ""
  | [b1] =>
      String.singleton (b64c (b1 / 4)) ++
      String.singleton (b64c (b1 % 4 * 16)) ++ "=="
  | [b1, b2] =>
      String.singleton (b64c (b1 / 4)) ++
      String.singleton (b64c (b1 % 4 * 16 + b2 / 16)) ++
      String.singleton (b64c (b2 % 16 * 4)) ++ "="
  | b1 :: b2 :: b3 :: rest =>
      String.singleton (b64c (b1 / 4)) ++
      String.singleton (b64c (b1 % 4 * 16 + b2 / 16)) ++
      String.singleton (b64c (b2 % 16 * 4 + b3 / 64)) ++
      String.singleton (b64c (b3 % 64)) ++ btoaBytes rest

/-- JavaScript `btoa`: base64 of the string's code points (valid for the
latin-1 strings `btoa` accepts). -/
def btoa (s : String) : String :=
  btoaBytes (s.data.map Char.toNat)

/-- JavaScript `String.prototype.startsWith`, over character lists. -/
def jsStartsWith (s pre : String) : Bool :=
  pre.data.isPrefixOf s.data

/-- JavaScript `s.endsWith('/')`: the last character is a slash. -/
def jsEndsWithSlash (s : String) : Bool :=
  s.data.getLast? == some (Char.ofNat 47)

/-- JavaScript `s.slice(0, -1)`: the string without its last character. -/
def jsDropLastChar (s : String) : String :=
  String.mk s.data.dropLast

/-- The token-formatting expression used on the Bearer and
AuthorizationCode paths of `getAuthorizationHeader`:
`token.startsWith('Bearer ') ? token : `Bearer ${token}``. -/
def bearerFormat (token : String) : String :=
  if jsStartsWith token "Bearer " then token else "Bearer " ++ token

/-- Characters left unescaped by the `application/x-www-form-urlencoded`
serializer used by `URLSearchParams.toString`: ASCII alphanumerics and
`* - . _`. -/
def isFormUnreserved (c : Char) : Bool :=
  (Char.ofNat 65 ≤ c && c ≤ Char.ofNat 90) ||
  (Char.ofNat 97 ≤ c && c ≤ Char.ofNat 122) ||
  (Char.ofNat 48 ≤ c && c ≤ Char.ofNat 57) ||
  c == Char.ofNat 42 || c == Char.ofNat 45 || c == Char.ofNat 46 ||
  c == Char.ofNat 95

/-- Form-urlencoding of a single character (space becomes `+`). -/
def formEncodeChar (c : Char) : String :=
  if c == Char.ofNat 32 then "+"
  else if isFormUnreserved c then String.singleton c
  else percentBytesStr (utf8Bytes c.toNat)

/-- Form-urlencoding over a character list. -/
def formEncodeChars : List Char → String
  | [] => ""
  | c :: cs => formEncodeChar c ++ formEncodeChars cs

/-- Form-urlencoding of a string. -/
def formEncodeStr (s : String) : String :=
  formEncodeChars s.data

/-- `URLSearchParams.toString`: `k=v` pairs joined with `&`. -/
def formEncode (ps : List (String × String)) : String :=
  String.intercalate "&" (ps.map fun p => formEncodeStr p.1 ++ "=" ++ formEncodeStr p.2)

/-- The secrets bag of the execution context.  `""` models an absent
secret; JavaScript tests presence by string truthiness, i.e. non-emptiness. -/
structure Secrets where
  BEARER_AUTH_TOKEN : String
  BASIC_USERNAME : String
  BASIC_PASSWORD : String
  OAUTH2_AUTHORIZATION_CODE_ACCESS_TOKEN : String
  OAUTH2_CLIENT_CREDENTIALS_CLIENT_SECRET : String
deriving Repr, DecidableEq

/-- The environment bag of the execution context (`""` models absence). -/
structure Env where
  ADDRESS : String
  OAUTH2_CLIENT_CREDENTIALS_TOKEN_URL : String
  OAUTH2_CLIENT_CREDENTIALS_CLIENT_ID : String
  OAUTH2_CLIENT_CREDENTIALS_SCOPE : String
  OAUTH2_CLIENT_CREDENTIALS_AUDIENCE : String
  OAUTH2_CLIENT_CREDENTIALS_AUTH_STYLE : String
deriving Repr, DecidableEq

/-- The response of the OAuth2 token endpoint as the code observes it:
HTTP status information, the error body (`JSON.stringify` of the parsed
JSON body, or the raw text when parsing fails), and the `access_token`
field (`""` when the response carries none). -/
structure TokenResponse where
  ok : Bool
  status : Nat
  statusText : String
  errorText : String
  access_token : String
deriving Repr, DecidableEq

/-- The configuration object passed to `getClientCredentialsToken`
(optional fields are `""` when absent). -/
structure CCConfig where
  tokenUrl : String
  clientId : String
  clientSecret : String
  scope : String
  audience : String
  authStyle : String
deriving Repr, DecidableEq

/-- The POST request `getClientCredentialsToken` sends to the token
endpoint: URL, headers, the `URLSearchParams` pairs and their
serialization. -/
structure TokenRequest where
  url : String
  headers : List (String × String)
  bodyParams : List (String × String)
  body : String
deriving Repr, DecidableEq

/-- Every error the action throws, by point of detection. -/
inductive ActionError where
  | noAddressConfigured
  | noAuthConfigured
  | ccMissingEnv
  | ccMissingConfig
  | tokenRequestFailed (status : Nat) (statusText errorText : String)
  | missingAccessToken
  | queryUserFailed (status : Nat) (statusText : String)
  | userNotFound (username : String)
  | queryAssignmentFailed (status : Nat) (statusText : String)
  | deleteAssignmentFailed (status : Nat) (statusText : String)
deriving Repr, DecidableEq

/-- The exact `Error` message the JavaScript code throws for each error. -/
def ActionError.message : ActionError → String
  | .noAddressConfigured =>
      "No URL specified. Provide address parameter or ADDRESS environment variable"
  | .noAuthConfigured =>
      "No authentication configured. Provide one of: " ++
      "BEARER_AUTH_TOKEN, BASIC_USERNAME/BASIC_PASSWORD, " ++
      "OAUTH2_AUTHORIZATION_CODE_ACCESS_TOKEN, or OAUTH2_CLIENT_CREDENTIALS_*"
  | .ccMissingEnv =>
      "OAuth2 Client Credentials flow requires TOKEN_URL and CLIENT_ID in env"
  | .ccMissingConfig =>
      "OAuth2 Client Credentials flow requires tokenUrl, clientId, and clientSecret"
  | .tokenRequestFailed status statusText errorText =>
      "OAuth2 token request failed: " ++ toString status ++ " " ++ statusText ++
      " - " ++ errorText
  | .missingAccessToken => "No access_token in OAuth2 response"
  | .queryUserFailed status statusText =>
      "Failed to query user: " ++ toString status ++ " " ++ statusText
  | .userNotFound username => "User not found: " ++ username
  | .queryAssignmentFailed status statusText =>
      "Failed to query permission set assignment: " ++ toString status ++ " " ++ statusText
  | .deleteAssignmentFailed status statusText =>
      "Failed to delete permission set assignment: " ++ toString status ++ " " ++ statusText

/-- The `URLSearchParams` body built by `getClientCredentialsToken`:
`grant_type=client_credentials`, then `scope` and `audience` when truthy,
then `client_id`/`client_secret` exactly when `authStyle === 'InParams'`. -/
def ccBodyParams (config : CCConfig) : List (String × String) :=
  [("grant_type", "client_credentials")] ++
  (if config.scope != "" then [("scope", config.scope)] else []) ++
  (if config.audience != "" then [("audience", config.audience)] else []) ++
  (if config.authStyle == "InParams" then
    [("client_id", config.clientId), ("client_secret", config.clientSecret)]
  else [])

/-- The headers of the token request: the three fixed headers, plus a
basic-auth `Authorization` header exactly when `authStyle` is not
`'InParams'`. -/
def ccHeaders (config : CCConfig) : List (String × String) :=
  [("Content-Type", "application/x-www-form-urlencoded"),
   ("Accept", "application/json"),
   ("User-Agent", "SGNL-CAEP-Hub/2.0")] ++
  (if config.authStyle == "InParams" then []
  else [("Authorization", "Basic " ++ btoa (config.clientId ++ ":" ++ config.clientSecret))])

/-- The full token request `getClientCredentialsToken` issues. -/
def ccTokenRequest (config : CCConfig) : TokenRequest :=
  { url := config.tokenUrl
    headers := ccHeaders config
    bodyParams := ccBodyParams config
    body := formEncode (ccBodyParams config) }

/-- `getClientCredentialsToken` from the bundled auth utilities.  Returns
the token request it issued (`none` when it fails before sending one)
alongside the token or the thrown error. -/
def getClientCredentialsToken (config : CCConfig) (resp : TokenResponse) :
    Option TokenRequest × Except ActionError String :=
  if config.tokenUrl == "" || config.clientId == "" || config.clientSecret == "" then
    (none, .error .ccMissingConfig)
  else
    let req := ccTokenRequest config
    if !resp.ok then
      (some req, .error (.tokenRequestFailed resp.status resp.statusText resp.errorText))
    else if resp.access_token == "" then
      (some req, .error .missingAccessToken)
    else
      (some req, .ok resp.access_token)

/-- The configuration object `getAuthorizationHeader` builds for
`getClientCredentialsToken` on its Method-4 path. -/
def ccConfigOf (secrets : Secrets) (env : Env) : CCConfig :=
  { tokenUrl := env.OAUTH2_CLIENT_CREDENTIALS_TOKEN_URL
    clientId := env.OAUTH2_CLIENT_CREDENTIALS_CLIENT_ID
    clientSecret := secrets.OAUTH2_CLIENT_CREDENTIALS_CLIENT_SECRET
    scope := env.OAUTH2_CLIENT_CREDENTIALS_SCOPE
    audience := env.OAUTH2_CLIENT_CREDENTIALS_AUDIENCE
    authStyle := env.OAUTH2_CLIENT_CREDENTIALS_AUTH_STYLE }

/-- Method 4 of `getAuthorizationHeader` (OAuth2 Client Credentials):
require `TOKEN_URL` and `CLIENT_ID` in the environment, fetch a token via
`getClientCredentialsToken`, and wrap it as `Bearer ${token}`. -/
def ccAuthorizationHeader (secrets : Secrets) (env : Env) (tokenResp : TokenResponse) :
    Option TokenRequest × Except ActionError String :=
  if env.OAUTH2_CLIENT_CREDENTIALS_TOKEN_URL == "" ||
     env.OAUTH2_CLIENT_CREDENTIALS_CLIENT_ID == "" then
    (none, .error .ccMissingEnv)
  else
    match getClientCredentialsToken (ccConfigOf secrets env) tokenResp with
    | (req, .ok token) => (req, .ok ("Bearer " ++ token))
    | (req, .error e) => (req, .error e)

/-- `getAuthorizationHeader` from the bundled auth utilities: four
authentication methods checked in order (Bearer, Basic, AuthorizationCode,
ClientCredentials).  `tokenResp` supplies the token endpoint's answer on
the client-credentials path; the request actually issued there is returned
alongside the header or error. -/
def getAuthorizationHeader (secrets : Secrets) (env : Env) (tokenResp : TokenResponse) :
    Option TokenRequest × Except ActionError String :=
  if secrets.BEARER_AUTH_TOKEN != "" then
    (none, .ok (bearerFormat secrets.BEARER_AUTH_TOKEN))
  else if secrets.BASIC_PASSWORD != "" && secrets.BASIC_USERNAME != "" then
    (none, .ok ("Basic " ++ btoa (secrets.BASIC_USERNAME ++ ":" ++ secrets.BASIC_PASSWORD)))
  else if secrets.OAUTH2_AUTHORIZATION_CODE_ACCESS_TOKEN != "" then
    (none, .ok (bearerFormat secrets.OAUTH2_AUTHORIZATION_CODE_ACCESS_TOKEN))
  else if secrets.OAUTH2_CLIENT_CREDENTIALS_CLIENT_SECRET != "" then
    ccAuthorizationHeader secrets env tokenResp
  else
    (none, .error .noAuthConfigured)

/-- `getBaseURL` from the bundled auth utilities: `params?.address ||
env.ADDRESS`, failing when empty, then stripping one trailing slash. -/
def getBaseURL (paramsAddress : String) (env : Env) : Except ActionError String :=
  let address := if paramsAddress != "" then paramsAddress else env.ADDRESS
  if address == "" then
    .error .noAddressConfigured
  else
    .ok (if jsEndsWithSlash address then jsDropLastChar address else address)

/-- A record of a Salesforce query response, carrying only the `Id` the
code reads. -/
structure SfRecord where
  Id : String
deriving Repr, DecidableEq

/-- A Salesforce query response as the code observes it: HTTP status
information and the parsed body's `records` array (`none` when the body
has no `records` field). -/
structure QueryResponse where
  ok : Bool
  status : Nat
  statusText : String
  records : Option (List SfRecord)
deriving Repr, DecidableEq

/-- The response to the DELETE request (no body is read). -/
structure HttpResponse where
  ok : Bool
  status : Nat
  statusText : String
deriving Repr, DecidableEq

/-- The remote responses one invocation can consume, in the order the
workflow issues its requests. -/
structure SfWorld where
  userResp : QueryResponse
  assignResp : QueryResponse
  deleteResp : HttpResponse
deriving Repr, DecidableEq

/-- One outbound `fetch` of the workflow: method, URL, and the
`Authorization` header value sent. -/
structure RemoteCall where
  method : String
  url : String
  authorization : String
deriving Repr, DecidableEq

/-- The success result object `invoke` returns. -/
structure Outcome where
  status : String
  username : String
  userId : String
  permissionSetId : String
  assignmentId : Option String
  removed : Bool
  address : String
deriving Repr, DecidableEq

/-- The SOQL query string of `findUserByUsername`: the username is passed
through `encodeURIComponent` before interpolation. -/
def findUserByUsernameQuery (username : String) : String :=
  "SELECT+Id+FROM+User+WHERE+Username=" ++ sq ++ encodeURIComponent username ++
  sq ++ "+ORDER+BY+Id+ASC"

/-- The URL `findUserByUsername` fetches. -/
def findUserByUsernameUrl (baseUrl username : String) : String :=
  baseUrl ++ "/services/data/v61.0/query?q=" ++ findUserByUsernameQuery username

/-- The GET request `findUserByUsername` issues. -/
def findUserByUsernameCall (username baseUrl authHeader : String) : RemoteCall :=
  { method := "GET"
    url := findUserByUsernameUrl baseUrl username
    authorization := authHeader }

/-- The SOQL query string of `findPermissionSetAssignment`: `userId` and
`permissionSetId` are interpolated verbatim, with no encoding. -/
def findPermissionSetAssignmentQuery (userId permissionSetId : String) : String :=
  "SELECT+Id+FROM+PermissionSetAssignment+WHERE+AssigneeId=" ++ sq ++ userId ++
  sq ++ "+AND+PermissionSetId=" ++ sq ++ permissionSetId ++ sq

/-- The URL `findPermissionSetAssignment` fetches. -/
def findPermissionSetAssignmentUrl (baseUrl userId permissionSetId : String) : String :=
  baseUrl ++ "/services/data/v61.0/query?q=" ++
  findPermissionSetAssignmentQuery userId permissionSetId

/-- The GET request `findPermissionSetAssignment` issues. -/
def findPermissionSetAssignmentCall
    (userId permissionSetId baseUrl authHeader : String) : RemoteCall :=
  { method := "GET"
    url := findPermissionSetAssignmentUrl baseUrl userId permissionSetId
    authorization := authHeader }

/-- The URL `deletePermissionSetAssignment` fetches. -/
def deletePermissionSetAssignmentUrl (baseUrl assignmentId : String) : String :=
  baseUrl ++ "/services/data/v61.0/sobjects/PermissionSetAssignment/" ++ assignmentId

/-- The DELETE request `deletePermissionSetAssignment` issues. -/
def deletePermissionSetAssignmentCall
    (assignmentId baseUrl authHeader : String) : RemoteCall :=
  { method := "DELETE"
    url := deletePermissionSetAssignmentUrl baseUrl assignmentId
    authorization := authHeader }

/-- The workflow body of `invoke` in `src/src/script.mjs` (lines 123–185),
starting after target-address and credential resolution: `username` and
`permissionSetId` are the already-resolved parameters, `baseUrl` the
result of `getBaseURL`, `authHeader` the result of
`getAuthorizationHeader`.  Returns the thrown error or the success
outcome, alongside the list of Salesforce requests issued, in order. -/
def invoke (username permissionSetId baseUrl authHeader : String) (w : SfWorld) :
    Except ActionError Outcome × List RemoteCall :=
  let userCall := findUserByUsernameCall username baseUrl authHeader
  if !w.userResp.ok then
    (.error (.queryUserFailed w.userResp.status w.userResp.statusText), [userCall])
  else
    match w.userResp.records with
    | none => (.error (.userNotFound username), [userCall])
    | some [] => (.error (.userNotFound username), [userCall])
    | some (r :: _) =>
      let userId := r.Id
      let assignCall := findPermissionSetAssignmentCall userId permissionSetId baseUrl authHeader
      if !w.assignResp.ok then
        (.error (.queryAssignmentFailed w.assignResp.status w.assignResp.statusText),
         [userCall, assignCall])
      else
        match w.assignResp.records with
        | none =>
          (.ok { status := "success", username := username, userId := userId
                 permissionSetId := permissionSetId, assignmentId := none
                 removed := false, address := baseUrl },
           [userCall, assignCall])
        | some [] =>
          (.ok { status := "success", username := username, userId := userId
                 permissionSetId := permissionSetId, assignmentId := none
                 removed := false, address := baseUrl },
           [userCall, assignCall])
        | some (a :: _) =>
          let assignmentId := a.Id
          let delCall := deletePermissionSetAssignmentCall assignmentId baseUrl authHeader
          if !w.deleteResp.ok then
            (.error (.deleteAssignmentFailed w.deleteResp.status w.deleteResp.statusText),
             [userCall, assignCall, delCall])
          else
            (.ok { status := "success", username := username, userId := userId
                   permissionSetId := permissionSetId, assignmentId := some assignmentId
                   removed := true, address := baseUrl },
             [userCall, assignCall, delCall])

/-- The decision of the `error` handler in `dist/index.js`. -/
inductive Classification where
  | Retryable
  | Fatal
deriving Repr, DecidableEq

/-- The classification logic of the `error` handler in `dist/index.js`
(lines 186–207): substring checks on the error's message, in the order the
code performs them.  `Retryable` models returning
`{status: 'retry_requested'}`; `Fatal` models rethrowing the error. -/
def classifyError (message : String) : Classification :=
  if strContains message "429" || strContains message "502" ||
     strContains message "503" || strContains message "504" then
    .Retryable
  else if strContains message "401" || strContains message "403" then
    .Fatal
  else
    .Retryable

/-! ## Helper lemmas -/

theorem data_slash : "/".data = [Char.ofNat 47] := by decide

theorem append_slash_ne_empty (s : String) : s ++ "/" ≠ "" := by
  intro h
  have hd : (s ++ "/").data = ("" : String).data := by rw [h]
  rw [String.data_append, data_slash] at hd
  simp at hd

theorem jsEndsWithSlash_append (s : String) : jsEndsWithSlash (s ++ "/") = true := by
  simp [jsEndsWithSlash, String.data_append, data_slash]

theorem jsDropLastChar_append (s : String) : jsDropLastChar (s ++ "/") = s := by
  apply String.ext
  show ((s ++ "/").data).dropLast = s.data
  rw [String.data_append, data_slash]
  simp

/-! ## Theorems about the claims -/

/-- C6: target address resolution prefers a non-empty explicit per-request
address over the environment default (the environment is irrelevant when
the explicit address is non-empty, and an empty explicit address defers to
`env.ADDRESS`), strips exactly one trailing slash (`s ++ "/"` normalizes
to `s`, so a value ending in two slashes keeps one, and a value without a
trailing slash is returned unchanged), and fails with `NoAddressConfigured`
when neither source yields a non-empty value. -/
theorem getBaseURL_spec (p : String) (env : Env) :
    (p ≠ "" → ∀ env' : Env, getBaseURL p env' = getBaseURL p env) ∧
    (p = "" → getBaseURL p env = getBaseURL env.ADDRESS env) ∧
    (p = "" → env.ADDRESS = "" → getBaseURL p env = .error .noAddressConfigured) ∧
    (∀ s : String, getBaseURL (s ++ "/") env = .ok s) ∧
    (jsEndsWithSlash p = false → p ≠ "" → getBaseURL p env = .ok p) := by
  refine ⟨?_, ?_, ?_, ?_, ?_⟩
  · intro hp env'
    simp [getBaseURL, hp]
  · intro hp
    subst hp
    by_cases h : env.ADDRESS = "" <;> simp [getBaseURL, h]
  · intro hp he
    subst hp
    simp [getBaseURL, he]
  · intro s
    simp [getBaseURL, append_slash_ne_empty s, jsEndsWithSlash_append s,
      jsDropLastChar_append s]
  · intro hslash hp
    simp [getBaseURL, hp, hslash]

/-- Witness for C6 at concrete inputs. -/
theorem getBaseURL_spec_witness :
    getBaseURL ("https://a.example" ++ "/")
      { ADDRESS := "https://b.example", OAUTH2_CLIENT_CREDENTIALS_TOKEN_URL := ""
        OAUTH2_CLIENT_CREDENTIALS_CLIENT_ID := "", OAUTH2_CLIENT_CREDENTIALS_SCOPE := ""
        OAUTH2_CLIENT_CREDENTIALS_AUDIENCE := "", OAUTH2_CLIENT_CREDENTIALS_AUTH_STYLE := "" } =
      .ok "https://a.example" ∧
    getBaseURL ""
      { ADDRESS := "", OAUTH2_CLIENT_CREDENTIALS_TOKEN_URL := ""
        OAUTH2_CLIENT_CREDENTIALS_CLIENT_ID := "", OAUTH2_CLIENT_CREDENTIALS_SCOPE := ""
        OAUTH2_CLIENT_CREDENTIALS_AUDIENCE := "", OAUTH2_CLIENT_CREDENTIALS_AUTH_STYLE := "" } =
      .error .noAddressConfigured :=
  ⟨(getBaseURL_spec "x" _).2.2.2.1 "https://a.example",
   (getBaseURL_spec "" _).2.2.1 rfl rfl⟩

/-- C5: the failure classifier of the `error` handler in `dist/index.js`
is a pure function of the error message: any message containing one of
`429`, `502`, `503` or `504` classifies as `Retryable`; a message
containing `401` or `403` (and none of the retryable markers, which the
code checks first) classifies as `Fatal`; a message containing none of the
six markers classifies as `Retryable` by default. -/
theorem classifyError_spec (m : String) :
    ((strContains m "429" = true ∨ strContains m "502" = true ∨
      strContains m "503" = true ∨ strContains m "504" = true) →
      classifyError m = .Retryable) ∧
    ((strContains m "401" = true ∨ strContains m "403" = true) →
      strContains m "429" = false → strContains m "502" = false →
      strContains m "503" = false → strContains m "504" = false →
      classifyError m = .Fatal) ∧
    (strContains m "429" = false → strContains m "502" = false →
      strContains m "503" = false → strContains m "504" = false →
      strContains m "401" = false → strContains m "403" = false →
      classifyError m = .Retryable) := by
  refine ⟨?_, ?_, ?_⟩
  · rintro (h | h | h | h) <;> simp [classifyError, h]
  · rintro (h | h) h1 h2 h3 h4 <;> simp [classifyError, h, h1, h2, h3, h4]
  · intro h1 h2 h3 h4 h5 h6
    simp [classifyError, h1, h2, h3, h4, h5, h6]

/-- Witness for C5 at concrete messages. -/
theorem classifyError_spec_witness :
    classifyError "Failed to query user: 429 Too Many Requests" = .Retryable ∧
    classifyError "Failed to query user: 401 Unauthorized" = .Fatal ∧
    classifyError "something else went wrong" = .Retryable :=
  ⟨(classifyError_spec "Failed to query user: 429 Too Many Requests").1
      (Or.inl (by decide)),
   (classifyError_spec "Failed to query user: 401 Unauthorized").2.1
      (Or.inl (by decide)) (by decide) (by decide) (by decide) (by decide),
   (classifyError_spec "something else went wrong").2.2
      (by decide) (by decide) (by decide) (by decide) (by decide) (by decide)⟩

theorem isPrefixOf_append_self {α : Type} [BEq α] [LawfulBEq α] (l m : List α) :
    l.isPrefixOf (l ++ m) = true := by
  induction l with
  | nil => simp [List.isPrefixOf]
  | cons a l ih => simp [List.isPrefixOf, ih]

theorem jsStartsWith_bearer_append (t : String) :
    jsStartsWith ("Bearer " ++ t) "Bearer " = true := by
  unfold jsStartsWith
  rw [String.data_append]
  exact isPrefixOf_append_self _ _

/-- C3: `getAuthorizationHeader` checks the four schemes in the fixed
order Bearer, Basic, AuthorizationCode, ClientCredentials, and the first
scheme whose required secret(s) are present wins: a non-empty
`BEARER_AUTH_TOKEN` wins over everything (in particular, when Basic
secrets are simultaneously present the resolved header carries the
`Bearer ` scheme), Basic needs both username and password, the
AuthorizationCode token is used only when Bearer and Basic are not
configured, the ClientCredentials path runs only when the first three are
not configured, and when no scheme's required fields are present the
resolution fails with the `NoAuthConfigured` error. -/
theorem getAuthorizationHeader_precedence (secrets : Secrets) (env : Env)
    (tr : TokenResponse) :
    (secrets.BEARER_AUTH_TOKEN ≠ "" →
      getAuthorizationHeader secrets env tr =
        (none, .ok (bearerFormat secrets.BEARER_AUTH_TOKEN)) ∧
      jsStartsWith (bearerFormat secrets.BEARER_AUTH_TOKEN) "Bearer " = true) ∧
    (secrets.BEARER_AUTH_TOKEN = "" →
     secrets.BASIC_PASSWORD ≠ "" → secrets.BASIC_USERNAME ≠ "" →
      getAuthorizationHeader secrets env tr =
        (none, .ok ("Basic " ++ btoa (secrets.BASIC_USERNAME ++ ":" ++ secrets.BASIC_PASSWORD)))) ∧
    (secrets.BEARER_AUTH_TOKEN = "" →
     (secrets.BASIC_PASSWORD = "" ∨ secrets.BASIC_USERNAME = "") →
     secrets.OAUTH2_AUTHORIZATION_CODE_ACCESS_TOKEN ≠ "" →
      getAuthorizationHeader secrets env tr =
        (none, .ok (bearerFormat secrets.OAUTH2_AUTHORIZATION_CODE_ACCESS_TOKEN))) ∧
    (secrets.BEARER_AUTH_TOKEN = "" →
     (secrets.BASIC_PASSWORD = "" ∨ secrets.BASIC_USERNAME = "") →
     secrets.OAUTH2_AUTHORIZATION_CODE_ACCESS_TOKEN = "" →
     secrets.OAUTH2_CLIENT_CREDENTIALS_CLIENT_SECRET ≠ "" →
      getAuthorizationHeader secrets env tr = ccAuthorizationHeader secrets env tr) ∧
    (secrets.BEARER_AUTH_TOKEN = "" →
     (secrets.BASIC_PASSWORD = "" ∨ secrets.BASIC_USERNAME = "") →
     secrets.OAUTH2_AUTHORIZATION_CODE_ACCESS_TOKEN = "" →
     secrets.OAUTH2_CLIENT_CREDENTIALS_CLIENT_SECRET = "" →
      getAuthorizationHeader secrets env tr = (none, .error .noAuthConfigured)) := by
  refine ⟨?_, ?_, ?_, ?_, ?_⟩
  · intro h
    refine ⟨by simp [getAuthorizationHeader, h], ?_⟩
    unfold bearerFormat
    by_cases hb : jsStartsWith secrets.BEARER_AUTH_TOKEN "Bearer " = true
    · simp [hb]
    · simp only [Bool.not_eq_true] at hb
      simp [hb, jsStartsWith_bearer_append]
  · intro h1 h2 h3
    simp [getAuthorizationHeader, h1, h2, h3]
  · rintro h1 (h2 | h2) h3 <;> simp [getAuthorizationHeader, h1, h2, h3]
  · rintro h1 (h2 | h2) h3 h4 <;> simp [getAuthorizationHeader, h1, h2, h3, h4]
  · rintro h1 (h2 | h2) h3 h4 <;> simp [getAuthorizationHeader, h1, h2, h3, h4]

/-- Witness for C3: with both Bearer and Basic secrets present the Bearer
scheme wins, and with no secrets configured the resolution fails with
`NoAuthConfigured`. -/
theorem getAuthorizationHeader_precedence_witness :
    getAuthorizationHeader
      { BEARER_AUTH_TOKEN := "tok", BASIC_USERNAME := "u", BASIC_PASSWORD := "p"
        OAUTH2_AUTHORIZATION_CODE_ACCESS_TOKEN := ""
        OAUTH2_CLIENT_CREDENTIALS_CLIENT_SECRET := "" }
      { ADDRESS := "", OAUTH2_CLIENT_CREDENTIALS_TOKEN_URL := ""
        OAUTH2_CLIENT_CREDENTIALS_CLIENT_ID := "", OAUTH2_CLIENT_CREDENTIALS_SCOPE := ""
        OAUTH2_CLIENT_CREDENTIALS_AUDIENCE := "", OAUTH2_CLIENT_CREDENTIALS_AUTH_STYLE := "" }
      { ok := true, status := 200, statusText := "OK", errorText := ""
        access_token := "" } =
      (none, .ok (bearerFormat "tok")) ∧
    getAuthorizationHeader
      { BEARER_AUTH_TOKEN := "", BASIC_USERNAME := "", BASIC_PASSWORD := ""
        OAUTH2_AUTHORIZATION_CODE_ACCESS_TOKEN := ""
        OAUTH2_CLIENT_CREDENTIALS_CLIENT_SECRET := "" }
      { ADDRESS := "", OAUTH2_CLIENT_CREDENTIALS_TOKEN_URL := ""
        OAUTH2_CLIENT_CREDENTIALS_CLIENT_ID := "", OAUTH2_CLIENT_CREDENTIALS_SCOPE := ""
        OAUTH2_CLIENT_CREDENTIALS_AUDIENCE := "", OAUTH2_CLIENT_CREDENTIALS_AUTH_STYLE := "" }
      { ok := true, status := 200, statusText := "OK", errorText := ""
        access_token := "" } =
      (none, .error .noAuthConfigured) :=
  ⟨((getAuthorizationHeader_precedence _ _ _).1 (by decide)).1,
   (getAuthorizationHeader_precedence _ _ _).2.2.2.2 rfl (Or.inl rfl) rfl rfl⟩

/-- C8: the Bearer and AuthorizationCode paths prepend the `Bearer `
scheme exactly when the stored token does not already start with it, the
formatting is idempotent, and resolving an already-prefixed stored token
returns it unchanged. -/
theorem bearerFormat_idempotent (secrets : Secrets) (env : Env) (tr : TokenResponse) :
    (∀ t, jsStartsWith t "Bearer " = false → bearerFormat t = "Bearer " ++ t) ∧
    (∀ t, jsStartsWith t "Bearer " = true → bearerFormat t = t) ∧
    (∀ t, bearerFormat (bearerFormat t) = bearerFormat t) ∧
    (secrets.BEARER_AUTH_TOKEN ≠ "" →
     jsStartsWith secrets.BEARER_AUTH_TOKEN "Bearer " = true →
      getAuthorizationHeader secrets env tr = (none, .ok secrets.BEARER_AUTH_TOKEN)) ∧
    (secrets.BEARER_AUTH_TOKEN = "" →
     (secrets.BASIC_PASSWORD = "" ∨ secrets.BASIC_USERNAME = "") →
     secrets.OAUTH2_AUTHORIZATION_CODE_ACCESS_TOKEN ≠ "" →
     jsStartsWith secrets.OAUTH2_AUTHORIZATION_CODE_ACCESS_TOKEN "Bearer " = true →
      getAuthorizationHeader secrets env tr =
        (none, .ok secrets.OAUTH2_AUTHORIZATION_CODE_ACCESS_TOKEN)) := by
  have hfmt : ∀ t, jsStartsWith t "Bearer " = true → bearerFormat t = t := by
    intro t h
    simp [bearerFormat, h]
  have hfmt' : ∀ t, jsStartsWith t "Bearer " = false → bearerFormat t = "Bearer " ++ t := by
    intro t h
    simp [bearerFormat, h]
  refine ⟨hfmt', hfmt, ?_, ?_, ?_⟩
  · intro t
    by_cases h : jsStartsWith t "Bearer " = true
    · rw [hfmt t h]
      exact hfmt t h
    · simp only [Bool.not_eq_true] at h
      rw [hfmt' t h]
      exact hfmt _ (jsStartsWith_bearer_append t)
  · intro h1 h2
    have := ((getAuthorizationHeader_precedence secrets env tr).1 h1).1
    rw [this, hfmt _ h2]
  · intro h1 h2 h3 h4
    have := (getAuthorizationHeader_precedence secrets env tr).2.2.1 h1 h2 h3
    rw [this, hfmt _ h4]

/-- Witness for C8: formatting is idempotent on a concrete token and an
already-prefixed stored token resolves unchanged. -/
theorem bearerFormat_idempotent_witness :
    bearerFormat (bearerFormat "abc") = bearerFormat "abc" ∧
    getAuthorizationHeader
      { BEARER_AUTH_TOKEN := "Bearer abc", BASIC_USERNAME := "", BASIC_PASSWORD := ""
        OAUTH2_AUTHORIZATION_CODE_ACCESS_TOKEN := ""
        OAUTH2_CLIENT_CREDENTIALS_CLIENT_SECRET := "" }
      { ADDRESS := "", OAUTH2_CLIENT_CREDENTIALS_TOKEN_URL := ""
        OAUTH2_CLIENT_CREDENTIALS_CLIENT_ID := "", OAUTH2_CLIENT_CREDENTIALS_SCOPE := ""
        OAUTH2_CLIENT_CREDENTIALS_AUDIENCE := "", OAUTH2_CLIENT_CREDENTIALS_AUTH_STYLE := "" }
      { ok := true, status := 200, statusText := "OK", errorText := ""
        access_token := "" } =
      (none, .ok "Bearer abc") :=
  ⟨(bearerFormat_idempotent
      { BEARER_AUTH_TOKEN := "Bearer abc", BASIC_USERNAME := "", BASIC_PASSWORD := ""
        OAUTH2_AUTHORIZATION_CODE_ACCESS_TOKEN := ""
        OAUTH2_CLIENT_CREDENTIALS_CLIENT_SECRET := "" }
      { ADDRESS := "", OAUTH2_CLIENT_CREDENTIALS_TOKEN_URL := ""
        OAUTH2_CLIENT_CREDENTIALS_CLIENT_ID := "", OAUTH2_CLIENT_CREDENTIALS_SCOPE := ""
        OAUTH2_CLIENT_CREDENTIALS_AUDIENCE := "", OAUTH2_CLIENT_CREDENTIALS_AUTH_STYLE := "" }
      { ok := true, status := 200, statusText := "OK", errorText := ""
        access_token := "" }).2.2.1 "abc",
   (bearerFormat_idempotent _ _ _).2.2.2.1 (by decide) (by decide)⟩

/-- C1: when an invocation reaches the relation lookup
(successful principal lookup with at least one record) and gets a
successful response, then: on zero matching records (or a missing
`records` field) it returns success with `removed = false` and
`assignmentId = null` and issues exactly the two query calls (no delete);
on one or more records it issues exactly three calls, the third being the
delete of the first record's id, returns success with `removed = true` and
`assignmentId` equal to that first matched id when the delete succeeds,
and throws `DeleteFailed` when the delete fails. -/
theorem invoke_relation_branch (username psId baseUrl auth : String) (w : SfWorld)
    (hUok : w.userResp.ok = true) (r : SfRecord) (rs : List SfRecord)
    (hUrec : w.userResp.records = some (r :: rs))
    (hAok : w.assignResp.ok = true) :
    ((w.assignResp.records = none ∨ w.assignResp.records = some []) →
      invoke username psId baseUrl auth w =
        (.ok { status := "success", username := username, userId := r.Id
               permissionSetId := psId, assignmentId := none, removed := false
               address := baseUrl },
         [findUserByUsernameCall username baseUrl auth,
          findPermissionSetAssignmentCall r.Id psId baseUrl auth])) ∧
    (∀ (a : SfRecord) (as : List SfRecord), w.assignResp.records = some (a :: as) →
      (invoke username psId baseUrl auth w).2 =
        [findUserByUsernameCall username baseUrl auth,
         findPermissionSetAssignmentCall r.Id psId baseUrl auth,
         deletePermissionSetAssignmentCall a.Id baseUrl auth] ∧
      (w.deleteResp.ok = true →
        (invoke username psId baseUrl auth w).1 =
          .ok { status := "success", username := username, userId := r.Id
                permissionSetId := psId, assignmentId := some a.Id, removed := true
                address := baseUrl }) ∧
      (w.deleteResp.ok = false →
        (invoke username psId baseUrl auth w).1 =
          .error (.deleteAssignmentFailed w.deleteResp.status w.deleteResp.statusText))) := by
  constructor
  · rintro (hA | hA) <;> simp [invoke, hUok, hUrec, hAok, hA]
  · intro a as hA
    refine ⟨?_, ?_, ?_⟩
    · by_cases hD : w.deleteResp.ok = true <;>
        simp_all [invoke, hUok, hUrec, hAok, hA]
    · intro hD
      simp [invoke, hUok, hUrec, hAok, hA, hD]
    · intro hD
      simp [invoke, hUok, hUrec, hAok, hA, hD]

/-- Witness for C1: a concrete world whose relation lookup returns one
record and whose delete succeeds yields `removed = true` with the first
matched id, via exactly three calls. -/
theorem invoke_relation_branch_witness :
    (invoke "bob@x.com" "0PS1" "https://sf" "Bearer t"
      { userResp := { ok := true, status := 200, statusText := "OK"
                      records := some [{ Id := "005A" }] }
        assignResp := { ok := true, status := 200, statusText := "OK"
                        records := some [{ Id := "0PA1" }, { Id := "0PA2" }] }
        deleteResp := { ok := true, status := 204, statusText := "No Content" } }).2 =
      [findUserByUsernameCall "bob@x.com" "https://sf" "Bearer t",
       findPermissionSetAssignmentCall "005A" "0PS1" "https://sf" "Bearer t",
       deletePermissionSetAssignmentCall "0PA1" "https://sf" "Bearer t"] ∧
    (invoke "bob@x.com" "0PS1" "https://sf" "Bearer t"
      { userResp := { ok := true, status := 200, statusText := "OK"
                      records := some [{ Id := "005A" }] }
        assignResp := { ok := true, status := 200, statusText := "OK"
                        records := some [{ Id := "0PA1" }, { Id := "0PA2" }] }
        deleteResp := { ok := true, status := 204, statusText := "No Content" } }).1 =
      .ok { status := "success", username := "bob@x.com", userId := "005A"
            permissionSetId := "0PS1", assignmentId := some "0PA1", removed := true
            address := "https://sf" } := by
  have h := (invoke_relation_branch "bob@x.com" "0PS1" "https://sf" "Bearer t"
      { userResp := { ok := true, status := 200, statusText := "OK"
                      records := some [{ Id := "005A" }] }
        assignResp := { ok := true, status := 200, statusText := "OK"
                        records := some [{ Id := "0PA1" }, { Id := "0PA2" }] }
        deleteResp := { ok := true, status := 204, statusText := "No Content" } }
      rfl { Id := "005A" } [] rfl rfl).2 { Id := "0PA1" } [{ Id := "0PA2" }] rfl
  exact ⟨h.1, h.2.1 rfl⟩

/-- C2: every success outcome `invoke` returns satisfies the invariant
that `removed = false` holds iff `assignmentId = none` holds iff the
relation lookup returned zero matching records (no `records` field or an
empty array). -/
theorem invoke_outcome_invariant (username psId baseUrl auth : String) (w : SfWorld)
    (o : Outcome) (h : (invoke username psId baseUrl auth w).1 = .ok o) :
    (o.removed = false ↔ o.assignmentId = none) ∧
    (o.removed = false ↔ (w.assignResp.records.getD [] = [])) := by
  by_cases hUok : w.userResp.ok = true
  · rcases hUrec : w.userResp.records with _ | ⟨_ | ⟨r, rs⟩⟩
    · simp [invoke, hUok, hUrec] at h
    · simp [invoke, hUok, hUrec] at h
    · by_cases hAok : w.assignResp.ok = true
      · rcases hArec : w.assignResp.records with _ | ⟨_ | ⟨a, as⟩⟩
        · simp [invoke, hUok, hUrec, hAok, hArec] at h
          simp [← h, hArec]
        · simp [invoke, hUok, hUrec, hAok, hArec] at h
          simp [← h, hArec]
        · by_cases hDok : w.deleteResp.ok = true
          · simp [invoke, hUok, hUrec, hAok, hArec, hDok] at h
            simp [← h, hArec]
          · simp only [Bool.not_eq_true] at hDok
            simp [invoke, hUok, hUrec, hAok, hArec, hDok] at h
      · simp only [Bool.not_eq_true] at hAok
        simp [invoke, hUok, hUrec, hAok] at h
  · simp only [Bool.not_eq_true] at hUok
    simp [invoke, hUok] at h

/-- Witness for C2: the invariant at a concrete zero-match world. -/
theorem invoke_outcome_invariant_witness :
    ((false = false) ↔ ((none : Option String) = none)) ∧
    ((false = false) ↔
      (({ ok := true, status := 200, statusText := "OK"
          records := some [] } : QueryResponse).records.getD [] = [])) := by
  have h := invoke_outcome_invariant "bob@x.com" "0PS1" "https://sf" "Bearer t"
    { userResp := { ok := true, status := 200, statusText := "OK"
                    records := some [{ Id := "005A" }] }
      assignResp := { ok := true, status := 200, statusText := "OK"
                      records := some [] }
      deleteResp := { ok := true, status := 204, statusText := "No Content" } }
    { status := "success", username := "bob@x.com", userId := "005A"
      permissionSetId := "0PS1", assignmentId := none, removed := false
      address := "https://sf" } rfl
  exact h

/-- C4: when the principal lookup responds successfully but with zero
matching records or no `records` field, the workflow throws the
`User not found` error naming the looked-up username, and the call trace
is exactly the single principal-lookup GET — no relation query and no
delete are issued. -/
theorem invoke_principal_not_found (username psId baseUrl auth : String) (w : SfWorld)
    (hUok : w.userResp.ok = true)
    (hUrec : w.userResp.records = none ∨ w.userResp.records = some []) :
    invoke username psId baseUrl auth w =
      (.error (.userNotFound username), [findUserByUsernameCall username baseUrl auth]) ∧
    (ActionError.userNotFound username).message = "User not found: " ++ username ∧
    ∀ c ∈ (invoke username psId baseUrl auth w).2,
      c.method = "GET" ∧ c.url = findUserByUsernameUrl baseUrl username := by
  have hmain : invoke username psId baseUrl auth w =
      (.error (.userNotFound username), [findUserByUsernameCall username baseUrl auth]) := by
    rcases hUrec with hU | hU <;> simp [invoke, hUok, hU]
  refine ⟨hmain, rfl, ?_⟩
  intro c hc
  rw [hmain] at hc
  simp only [List.mem_singleton] at hc
  subst hc
  exact ⟨rfl, rfl⟩

/-- Witness for C4 at a concrete empty principal-lookup response. -/
theorem invoke_principal_not_found_witness :
    invoke "ghost@x.com" "0PS1" "https://sf" "Bearer t"
      { userResp := { ok := true, status := 200, statusText := "OK", records := some [] }
        assignResp := { ok := true, status := 200, statusText := "OK", records := some [] }
        deleteResp := { ok := true, status := 204, statusText := "No Content" } } =
      (.error (.userNotFound "ghost@x.com"),
       [findUserByUsernameCall "ghost@x.com" "https://sf" "Bearer t"]) ∧
    (ActionError.userNotFound "ghost@x.com").message = "User not found: " ++ "ghost@x.com" :=
  ⟨(invoke_principal_not_found "ghost@x.com" "0PS1" "https://sf" "Bearer t"
      { userResp := { ok := true, status := 200, statusText := "OK", records := some [] }
        assignResp := { ok := true, status := 200, statusText := "OK", records := some [] }
        deleteResp := { ok := true, status := 204, statusText := "No Content" } }
      rfl (Or.inr rfl)).1,
   (invoke_principal_not_found "ghost@x.com" "0PS1" "https://sf" "Bearer t"
      { userResp := { ok := true, status := 200, statusText := "OK", records := some [] }
        assignResp := { ok := true, status := 200, statusText := "OK", records := some [] }
        deleteResp := { ok := true, status := 204, statusText := "No Content" } }
      rfl (Or.inr rfl)).2.1⟩

/-- C7: OAuth2 client-credentials resolution requires `tokenUrl`,
`clientId` and `clientSecret` and fails otherwise; the token request's
form body always carries `grant_type=client_credentials`, carries `scope`
and `audience` exactly when configured, embeds `client_id`/`client_secret`
in the body exactly when `authStyle` is `InParams` (otherwise — the
default — they travel as a basic-auth header on the token request); a
non-success response fails with `TokenRequestFailed` carrying the remote
status and body text, a success response without an `access_token` fails
with `MissingAccessToken`, and on success the returned token is wrapped
with the `Bearer ` scheme by `getAuthorizationHeader`. -/
theorem getClientCredentialsToken_spec (config : CCConfig) (resp : TokenResponse) :
    ((config.tokenUrl = "" ∨ config.clientId = "" ∨ config.clientSecret = "") →
      getClientCredentialsToken config resp = (none, .error .ccMissingConfig)) ∧
    (config.tokenUrl ≠ "" → config.clientId ≠ "" → config.clientSecret ≠ "" →
      (getClientCredentialsToken config resp).1 = some (ccTokenRequest config)) ∧
    ((ccTokenRequest config).url = config.tokenUrl ∧
     (ccTokenRequest config).body = formEncode (ccTokenRequest config).bodyParams) ∧
    (("grant_type", "client_credentials") ∈ (ccTokenRequest config).bodyParams) ∧
    (config.scope ≠ "" → ("scope", config.scope) ∈ (ccTokenRequest config).bodyParams) ∧
    (config.scope = "" → ∀ v, ("scope", v) ∉ (ccTokenRequest config).bodyParams) ∧
    (config.audience ≠ "" →
      ("audience", config.audience) ∈ (ccTokenRequest config).bodyParams) ∧
    (config.audience = "" → ∀ v, ("audience", v) ∉ (ccTokenRequest config).bodyParams) ∧
    (config.authStyle = "InParams" →
      ("client_id", config.clientId) ∈ (ccTokenRequest config).bodyParams ∧
      ("client_secret", config.clientSecret) ∈ (ccTokenRequest config).bodyParams ∧
      ∀ v, ("Authorization", v) ∉ (ccTokenRequest config).headers) ∧
    (config.authStyle ≠ "InParams" →
      ("Authorization", "Basic " ++ btoa (config.clientId ++ ":" ++ config.clientSecret)) ∈
        (ccTokenRequest config).headers ∧
      (∀ v, ("client_id", v) ∉ (ccTokenRequest config).bodyParams) ∧
      (∀ v, ("client_secret", v) ∉ (ccTokenRequest config).bodyParams)) ∧
    (config.tokenUrl ≠ "" → config.clientId ≠ "" → config.clientSecret ≠ "" →
      (resp.ok = false →
        (getClientCredentialsToken config resp).2 =
          .error (.tokenRequestFailed resp.status resp.statusText resp.errorText)) ∧
      (resp.ok = true → resp.access_token = "" →
        (getClientCredentialsToken config resp).2 = .error .missingAccessToken) ∧
      (resp.ok = true → resp.access_token ≠ "" →
        (getClientCredentialsToken config resp).2 = .ok resp.access_token)) ∧
    (∀ (secrets : Secrets) (env : Env), secrets.BEARER_AUTH_TOKEN = "" →
      (secrets.BASIC_PASSWORD = "" ∨ secrets.BASIC_USERNAME = "") →
      secrets.OAUTH2_AUTHORIZATION_CODE_ACCESS_TOKEN = "" →
      secrets.OAUTH2_CLIENT_CREDENTIALS_CLIENT_SECRET ≠ "" →
      ccConfigOf secrets env = config →
      config.tokenUrl ≠ "" → config.clientId ≠ "" →
      resp.ok = true → resp.access_token ≠ "" →
      getAuthorizationHeader secrets env resp =
        (some (ccTokenRequest config), .ok ("Bearer " ++ resp.access_token))) := by
  refine ⟨?_, ?_, ⟨rfl, rfl⟩, ?_, ?_, ?_, ?_, ?_, ?_, ?_, ?_, ?_⟩
  · rintro (h | h | h) <;> simp [getClientCredentialsToken, h]
  · intro h1 h2 h3
    simp only [getClientCredentialsToken, h1, h2, h3]
    by_cases hok : resp.ok = true <;>
      by_cases hat : resp.access_token = "" <;>
      simp [h1, h2, h3, hok, hat]
  · show _ ∈ ccBodyParams config
    simp [ccBodyParams]
  · intro h
    show _ ∈ ccBodyParams config
    simp [ccBodyParams, h]
  · intro h v
    show _ ∉ ccBodyParams config
    simp only [ccBodyParams, h]
    by_cases ha : config.audience != "" <;>
      by_cases hs : config.authStyle == "InParams" <;>
      simp [ha, hs]
  · intro h
    show _ ∈ ccBodyParams config
    simp [ccBodyParams, h]
  · intro h v
    show _ ∉ ccBodyParams config
    simp only [ccBodyParams, h]
    by_cases hsc : config.scope != "" <;>
      by_cases hs : config.authStyle == "InParams" <;>
      simp [hsc, hs]
  · intro h
    refine ⟨?_, ?_, ?_⟩
    · show _ ∈ ccBodyParams config
      simp [ccBodyParams, h]
    · show _ ∈ ccBodyParams config
      simp [ccBodyParams, h]
    · intro v
      show _ ∉ ccHeaders config
      simp [ccHeaders, h]
  · intro h
    refine ⟨?_, ?_, ?_⟩
    · show _ ∈ ccHeaders config
      simp [ccHeaders, h]
    · intro v
      show _ ∉ ccBodyParams config
      simp only [ccBodyParams]
      by_cases hsc : config.scope != "" <;>
        by_cases ha : config.audience != "" <;>
        simp [hsc, ha, h]
    · intro v
      show _ ∉ ccBodyParams config
      simp only [ccBodyParams]
      by_cases hsc : config.scope != "" <;>
        by_cases ha : config.audience != "" <;>
        simp [hsc, ha, h]
  · intro h1 h2 h3
    refine ⟨?_, ?_, ?_⟩
    · intro hok
      simp [getClientCredentialsToken, h1, h2, h3, hok]
    · intro hok hat
      simp [getClientCredentialsToken, h1, h2, h3, hok, hat]
    · intro hok hat
      simp [getClientCredentialsToken, h1, h2, h3, hok, hat]
  · intro secrets env hb hbasic hac hcs hcfg h1 h2 hok hat
    have hstep : getAuthorizationHeader secrets env resp =
        ccAuthorizationHeader secrets env resp := by
      rcases hbasic with hp | hu
      · simp [getAuthorizationHeader, hb, hp, hac, hcs]
      · simp [getAuthorizationHeader, hb, hu, hac, hcs]
    rw [hstep]
    have h3 : config.clientSecret ≠ "" := by
      rw [← hcfg]
      exact hcs
    unfold ccAuthorizationHeader
    rw [hcfg]
    have ht : env.OAUTH2_CLIENT_CREDENTIALS_TOKEN_URL = config.tokenUrl := by
      rw [← hcfg]; rfl
    have hi : env.OAUTH2_CLIENT_CREDENTIALS_CLIENT_ID = config.clientId := by
      rw [← hcfg]; rfl
    rw [ht, hi]
    simp [getClientCredentialsToken, h1, h2, h3, hok, hat]

/-- Witness for C7: a concrete configured flow with a successful token
response resolves to `Bearer <token>`, and a missing `clientSecret` fails. -/
theorem getClientCredentialsToken_spec_witness :
    getAuthorizationHeader
      { BEARER_AUTH_TOKEN := "", BASIC_USERNAME := "", BASIC_PASSWORD := ""
        OAUTH2_AUTHORIZATION_CODE_ACCESS_TOKEN := ""
        OAUTH2_CLIENT_CREDENTIALS_CLIENT_SECRET := "sec" }
      { ADDRESS := "", OAUTH2_CLIENT_CREDENTIALS_TOKEN_URL := "https://t"
        OAUTH2_CLIENT_CREDENTIALS_CLIENT_ID := "cid", OAUTH2_CLIENT_CREDENTIALS_SCOPE := "s1"
        OAUTH2_CLIENT_CREDENTIALS_AUDIENCE := "", OAUTH2_CLIENT_CREDENTIALS_AUTH_STYLE := "" }
      { ok := true, status := 200, statusText := "OK", errorText := ""
        access_token := "tok" } =
      (some (ccTokenRequest
        { tokenUrl := "https://t", clientId := "cid", clientSecret := "sec"
          scope := "s1", audience := "", authStyle := "" }),
       .ok ("Bearer " ++ "tok")) ∧
    getClientCredentialsToken
      { tokenUrl := "https://t", clientId := "cid", clientSecret := ""
        scope := "", audience := "", authStyle := "" }
      { ok := true, status := 200, statusText := "OK", errorText := ""
        access_token := "tok" } =
      (none, .error .ccMissingConfig) :=
  ⟨(getClientCredentialsToken_spec
      { tokenUrl := "https://t", clientId := "cid", clientSecret := "sec"
        scope := "s1", audience := "", authStyle := "" }
      { ok := true, status := 200, statusText := "OK", errorText := ""
        access_token := "tok" }).2.2.2.2.2.2.2.2.2.2.2
      _ _ rfl (Or.inl rfl) rfl (by decide) rfl (by decide) (by decide) rfl (by decide),
   (getClientCredentialsToken_spec
      { tokenUrl := "https://t", clientId := "cid", clientSecret := ""
        scope := "", audience := "", authStyle := "" }
      { ok := true, status := 200, statusText := "OK", errorText := ""
        access_token := "tok" }).1 (Or.inr (Or.inr rfl))⟩

theorem utf8Bytes_lt_256 (n : Nat) (hn : n < 1114112) :
    ∀ b ∈ utf8Bytes n, b < 256 := by
  intro b hb
  unfold utf8Bytes at hb
  split_ifs at hb <;> simp at hb <;> omega

theorem hexUpper_unreserved : ∀ n < 16, isUriUnreserved (hexUpper n) = true := by
  decide

theorem percentByte_chars (b : Nat) (hb : b < 256) :
    ∀ c ∈ (percentByte b).data, isUriUnreserved c = true ∨ c = Char.ofNat 37 := by
  intro c hc
  have hdata : (percentByte b).data =
      [Char.ofNat 37, hexUpper (b / 16), hexUpper (b % 16)] := rfl
  rw [hdata] at hc
  simp only [List.mem_cons, List.mem_singleton, List.not_mem_nil, or_false] at hc
  rcases hc with hc | hc | hc
  · exact Or.inr hc
  · subst hc
    exact Or.inl (hexUpper_unreserved (b / 16) (by omega))
  · subst hc
    exact Or.inl (hexUpper_unreserved (b % 16) (by omega))

theorem char_toNat_lt (c : Char) : c.toNat < 1114112 := by
  have h := c.valid
  simp only [UInt32.isValidChar, Nat.isValidChar] at h
  show c.val.toNat < 1114112
  omega

theorem percentBytesStr_chars (bs : List Nat) (hb : ∀ b ∈ bs, b < 256) :
    ∀ c ∈ (percentBytesStr bs).data,
      isUriUnreserved c = true ∨ c = Char.ofNat 37 := by
  induction bs with
  | nil => intro c hc; simp [percentBytesStr] at hc
  | cons b bs ih =>
    intro c hc
    rw [percentBytesStr, String.data_append, List.mem_append] at hc
    rcases hc with hc | hc
    · exact percentByte_chars b (hb b (by simp)) c hc
    · exact ih (fun x hx => hb x (by simp [hx])) c hc

theorem encodeURIChar_chars (c : Char) :
    ∀ d ∈ (encodeURIChar c).data, isUriUnreserved d = true ∨ d = Char.ofNat 37 := by
  intro d hd
  unfold encodeURIChar at hd
  by_cases h : isUriUnreserved c = true
  · rw [if_pos h] at hd
    have : (String.singleton c).data = [c] := rfl
    rw [this, List.mem_singleton] at hd
    subst hd
    exact Or.inl h
  · rw [if_neg h] at hd
    exact percentBytesStr_chars _ (utf8Bytes_lt_256 c.toNat (char_toNat_lt c)) d hd

theorem encodeURIChars_chars (cs : List Char) :
    ∀ d ∈ (encodeURIChars cs).data, isUriUnreserved d = true ∨ d = Char.ofNat 37 := by
  induction cs with
  | nil => intro d hd; simp [encodeURIChars] at hd
  | cons c cs ih =>
    intro d hd
    rw [encodeURIChars, String.data_append, List.mem_append] at hd
    rcases hd with hd | hd
    · exact encodeURIChar_chars c d hd
    · exact ih d hd

/-- C9: the principal-lookup SOQL query interpolates
`encodeURIComponent(username)` — never the raw username — and the encoded
form consists only of unreserved characters (ASCII alphanumerics and
`- _ . ! ~ * ' ( )`) and percent-escapes, so every URL-special character
of the username is percent-encoded rather than embedded raw in the query. -/
theorem findUserByUsernameQuery_encodes (username : String) :
    findUserByUsernameQuery username =
      "SELECT+Id+FROM+User+WHERE+Username=" ++ sq ++ encodeURIComponent username ++
      sq ++ "+ORDER+BY+Id+ASC" ∧
    ∀ c ∈ (encodeURIComponent username).data,
      isUriUnreserved c = true ∨ c = Char.ofNat 37 :=
  ⟨rfl, encodeURIChars_chars username.data⟩

/-- Witness for C9: the space in a concrete username is percent-encoded
and the `%` introduced by its escape satisfies the alphabet property. -/
theorem findUserByUsernameQuery_encodes_witness :
    isUriUnreserved (Char.ofNat 37) = true ∨ Char.ofNat 37 = Char.ofNat 37 :=
  (findUserByUsernameQuery_encodes "a b").2 (Char.ofNat 37) (by decide)

theorem listContainsSub_append (x p y : List Char) :
    listContainsSub (x ++ (p ++ y)) p = true := by
  unfold listContainsSub
  rw [List.any_eq_true]
  refine ⟨x.length, ?_, ?_⟩
  · rw [List.mem_range]
    have hle : x.length ≤ (x ++ (p ++ y)).length := by
      rw [List.length_append]
      omega
    omega
  · rw [List.drop_left]
    exact isPrefixOf_append_self p y

theorem strContains_of_split (s pat : String) (x y : List Char)
    (h : s.data = x ++ (pat.data ++ y)) : strContains s pat = true := by
  unfold strContains
  rw [h]
  exact listContainsSub_append x pat.data y

/-- C10: the relation (PermissionSetAssignment) lookup interpolates the
resolved user id and the caller-supplied `permissionSetId` into the SOQL
query string verbatim — no `encodeURIComponent` is applied — so both
values occur raw as contiguous substrings of the query, whatever
characters (quotes, URL-special characters) they contain. -/
theorem findPermissionSetAssignmentQuery_raw (userId psId : String) :
    findPermissionSetAssignmentQuery userId psId =
      "SELECT+Id+FROM+PermissionSetAssignment+WHERE+AssigneeId=" ++ sq ++ userId ++
      sq ++ "+AND+PermissionSetId=" ++ sq ++ psId ++ sq ∧
    strContains (findPermissionSetAssignmentQuery userId psId) userId = true ∧
    strContains (findPermissionSetAssignmentQuery userId psId) psId = true := by
  refine ⟨rfl, ?_, ?_⟩
  · apply strContains_of_split _ _
      ("SELECT+Id+FROM+PermissionSetAssignment+WHERE+AssigneeId=" ++ sq).data
      ((sq ++ "+AND+PermissionSetId=" ++ sq ++ psId ++ sq).data)
    simp only [findPermissionSetAssignmentQuery, String.data_append, List.append_assoc]
  · apply strContains_of_split _ _
      ("SELECT+Id+FROM+PermissionSetAssignment+WHERE+AssigneeId=" ++ sq ++ userId ++
        sq ++ "+AND+PermissionSetId=" ++ sq).data
      (sq.data)
    simp only [findPermissionSetAssignmentQuery, String.data_append, List.append_assoc]

end SfRemovePermSet
